import Mathlib

/-!
Verification of the credential-refresh coordinator in `src/api/client.js`
(AdVision frontend).

The file is a shallow embedding of the axios client wrapper:

* the outbound request interceptor (lines 34-52 of `client.js`),
* the module-level refresh state (`isRefreshing`, `failedQueue`, lines 55-56),
* `processQueue` (lines 58-68),
* the response error interceptor (lines 76-177), split into its synchronous
  part `respHandler` (everything up to the `await axios.post`) and the
  continuation `refreshSettle` that runs when the refresh promise settles,
* a small event-trace semantics `sysRun` that interleaves interceptor
  invocations, matching the single-threaded callback scheduling of the
  browser runtime.

Machine state that in JavaScript lives in module globals and `localStorage`
is carried explicitly in `SysState`.  Ghost counters (`refreshPosts`,
`redirects`) count the `axios.post` refresh calls and the
`window.location.href = '/login'` assignments.
-/

namespace AdVision

/-- Substring search over character lists: does the list start with `pat`
at some position?  Models JavaScript `String.prototype.includes`. -/
def includesAux (pat : List Char) : List Char → Bool
  | [] => pat.isEmpty
  | c :: rest => pat.isPrefixOf (c :: rest) || includesAux pat rest

/-- JavaScript `s.includes(pat)`. -/
def includes (s pat : String) : Bool :=
  includesAux pat.data s.data

/-- The two `localStorage` keys the client uses (`access_token`,
`refresh_token`).  `none` models an absent key (`getItem` returns `null`). -/
structure Store where
  access_token : Option String
  refresh_token : Option String
deriving DecidableEq

/-- JavaScript truthiness of a `localStorage.getItem` result: `null` and the
empty string are falsy. -/
def truthy : Option String → Bool
  | none => false
  | some s => s != ""

/-- The headers of a request descriptor; only the two headers the client
ever touches are tracked. -/
structure Headers where
  authorization : Option String
  contentType : Option String
deriving DecidableEq

/-- An axios request config as the interceptors see it: target URL, method,
headers, and the `_retry` marker the 401 handler writes onto it. -/
structure RequestConfig where
  url : String
  method : String
  headers : Headers
  retry : Bool
deriving DecidableEq

/-- Outbound request interceptor (`client.js` lines 34-52): reads
`access_token` from the store and, when it is truthy and the URL is not a
login or registration endpoint, sets `Authorization: Bearer <token>`.
Nothing else in the config is touched; absence of a token is not an error. -/
def requestInterceptor (store : Store) (config : RequestConfig) : RequestConfig :=
  match store.access_token with
  | some token =>
      if token != "" && !(includes config.url "/auth/login")
          && !(includes config.url "/auth/registration") then
        { config with headers := { config.headers with
            authorization := some ("Bearer " ++ token) } }
      else config
  | none => config

/-- A queued continuation: the resolve/reject pair pushed onto `failedQueue`,
identified by `id`, with the originating request the closure captured. -/
structure Cont where
  id : Nat
  req : RequestConfig
deriving DecidableEq

/-- An error produced by the refresh call itself: an HTTP error status or a
network-level failure with no response. -/
inductive RefreshErr where
  | httpErr (status : Nat)
  | networkErr
deriving DecidableEq

/-- How a queued continuation was settled: `resolve(token)` or
`reject(error)`. -/
inductive Settlement where
  | resolved (c : Cont) (token : Option String)
  | rejected (c : Cont) (e : RefreshErr)
deriving DecidableEq

/-- The continuation a settlement settled. -/
def settledCont : Settlement → Cont
  | .resolved c _ => c
  | .rejected c _ => c

/-- `processQueue` (`client.js` lines 58-68): walk `failedQueue` in order,
rejecting every entry when `error` is present and resolving it with `token`
otherwise, then empty the queue.  Returns the settlements produced and the
new queue. -/
def processQueue (queue : List Cont) (error : Option RefreshErr)
    (token : Option String) : List Settlement × List Cont :=
  (queue.map fun c =>
      match error with
      | some e => Settlement.rejected c e
      | none => Settlement.resolved c token,
    [])

/-- The whole mutable state of the module: the two globals `isRefreshing`
and `failedQueue`, the `localStorage` store, the request awaiting the
in-flight refresh (captured by the `await`), and ghost counters for refresh
POSTs and redirects to `/login`. -/
structure SysState where
  isRefreshing : Bool
  failedQueue : List Cont
  store : Store
  pending : Option RequestConfig
  refreshPosts : Nat
  redirects : Nat
deriving DecidableEq

/-- `localStorage.removeItem` on both token keys (`client.js` lines 139-140
and 165-166). -/
def clearTokens (s : Store) : Store :=
  { s with access_token := none, refresh_token := none }

/-- The parts of an axios error object the 401 handler reads:
`error.response?.status` (absent when no response was received) and
`error.config`. -/
structure AxiosError where
  status : Option Nat
  config : RequestConfig
deriving DecidableEq

/-- The auth-endpoint test of the 401 handler (`client.js` lines 113-115):
login, registration and third-party Google auth URLs. -/
def isAuthEndpoint (url : String) : Bool :=
  includes url "/auth/login" || includes url "/auth/registration"
    || includes url "/auth/google"

/-- What one invocation of the response error interceptor did, from the
point of view of the caller whose request failed. -/
inductive HandlerAction where
  /-- The interceptor returned `Promise.reject(error)`: the original error
  propagates unchanged to the caller. -/
  | rejectOriginal
  /-- A resolve/reject pair was pushed onto `failedQueue`; the caller is
  suspended until the in-flight refresh settles. -/
  | enqueued
  /-- Missing refresh token branch: both tokens removed, redirect to
  `/login` signaled, original request rejected with the original error. -/
  | missingRefreshToken
  /-- `axios.post` to the refresh endpoint was issued with the given
  refresh token; the handler is suspended at the `await`. -/
  | refreshStarted (refreshToken : String)
deriving DecidableEq

/-- Synchronous part of the response error interceptor
(`client.js` lines 107-176, up to the `await` on line 148).  `cid`
identifies the fresh promise a queued caller would wait on. -/
def respHandler (s : SysState) (error : AxiosError) (cid : Nat) :
    SysState × HandlerAction :=
  if error.status == some 401 && !error.config.retry then
    if isAuthEndpoint error.config.url then
      (s, .rejectOriginal)
    else if s.isRefreshing then
      ({ s with failedQueue := s.failedQueue ++ [⟨cid, error.config⟩] },
        .enqueued)
    else
      let origReq := { error.config with retry := true }
      let s1 : SysState := { s with isRefreshing := true }
      let refreshToken := s1.store.refresh_token
      if !(truthy refreshToken) then
        ({ s1 with
            store := clearTokens s1.store
            redirects := s1.redirects + 1 },
          .missingRefreshToken)
      else
        ({ s1 with
            pending := some origReq
            refreshPosts := s1.refreshPosts + 1 },
          .refreshStarted (refreshToken.getD ""))
  else
    (s, .rejectOriginal)

/-- Outcome of the refresh call: `response.data.access` on success, an
error otherwise. -/
inductive RefreshResult where
  | success (access : String)
  | failure (e : RefreshErr)
deriving DecidableEq

/-- Everything the settlement of the in-flight refresh produces: the new
state, the settlements of the queued continuations, the requests each
resolved continuation replays through `apiClient`, the initiator's replay,
and the error the initiator's promise is rejected with on failure. -/
structure SettleOut where
  state : SysState
  settlements : List Settlement
  queuedReplays : List RequestConfig
  initiatorReplay : Option RequestConfig
  originalError : Option RefreshErr
deriving DecidableEq

/-- Continuation of the 401 handler once the refresh promise settles
(`client.js` lines 152-173).  On success: store the new access token, run
`processQueue(null, access)`, reattach the bearer header to the initiator
and replay it; every resolved queued continuation reattaches the header to
its captured request and replays it (lines 124-126).  On failure: run
`processQueue(refreshError)`, remove both tokens, redirect to `/login`,
reject the initiator with the refresh error.  Either way the `finally`
resets `isRefreshing`. -/
def refreshSettle (s : SysState) (orig : RequestConfig)
    (res : RefreshResult) : SettleOut :=
  match res with
  | .success access =>
      let s1 := { s with store := { s.store with access_token := some access } }
      let processed := processQueue s1.failedQueue none (some access)
      let s2 := { s1 with failedQueue := processed.2 }
      { state := { s2 with isRefreshing := false, pending := none },
        settlements := processed.1,
        queuedReplays := s.failedQueue.map fun c =>
          { c.req with headers := { c.req.headers with
              authorization := some ("Bearer " ++ access) } },
        initiatorReplay := some { orig with headers := { orig.headers with
            authorization := some ("Bearer " ++ access) } },
        originalError := none }
  | .failure e =>
      let processed := processQueue s.failedQueue (some e) none
      let s1 := { s with
          failedQueue := processed.2
          store := clearTokens s.store
          redirects := s.redirects + 1 }
      { state := { s1 with isRefreshing := false, pending := none },
        settlements := processed.1,
        queuedReplays := [],
        initiatorReplay := none,
        originalError := some e }

/-- One scheduling event of the single-threaded runtime: an interceptor
invocation for a request that received an error response, or the settlement
of the in-flight refresh call. -/
inductive Event where
  | arrive (error : AxiosError) (cid : Nat)
  | settle (res : RefreshResult)
deriving DecidableEq

/-- One step of the system: interceptor invocations and refresh settlement
run to completion one at a time (cooperative scheduling, no preemption). -/
def sysStep (s : SysState) (e : Event) : SysState :=
  match e with
  | .arrive error cid => (respHandler s error cid).1
  | .settle res =>
      match s.pending with
      | some orig => (refreshSettle s orig res).state
      | none => s

/-- Run a sequence of interleaved events. -/
def sysRun (s : SysState) : List Event → SysState
  | [] => s
  | e :: es => sysRun (sysStep s e) es

/-- An event that is a plain API 401: a 401 response for a request not yet
marked retried whose URL is not an auth endpoint. -/
def plainApi401 : Event → Bool
  | .arrive error _ =>
      error.status == some 401 && !error.config.retry
        && !(isAuthEndpoint error.config.url)
  | .settle _ => false

/-- The refresh network call itself (`client.js` lines 148-150): issued
through the bare `axios` library, not through `apiClient`. -/
structure RefreshCall where
  url : String
  bodyRefresh : String
  headers : Headers
deriving DecidableEq

/-- `axios.post(apiUrl ++ "/auth/token/refresh/", body)` on the bare axios
default instance: default JSON headers, no `Authorization` header, and the
request does not pass through `apiClient`'s interceptors. -/
def refreshCallOf (apiUrl refreshToken : String) : RefreshCall :=
  { url := apiUrl ++ "/auth/token/refresh/",
    bodyRefresh := refreshToken,
    headers := { authorization := none,
                 contentType := some "application/json" } }

/-- How the refresh result settles one continuation: `resolve(access)` on
success, `reject(error)` on failure. -/
def settleWith (res : RefreshResult) (c : Cont) : Settlement :=
  match res with
  | .success access => Settlement.resolved c (some access)
  | .failure e => Settlement.rejected c e

/-- Concrete initial state: idle coordinator, empty queue, both tokens
present. -/
def exS0 : SysState :=
  { isRefreshing := false, failedQueue := [],
    store := { access_token := some "old", refresh_token := some "rt0" },
    pending := none, refreshPosts := 0, redirects := 0 }

/-- Concrete non-auth API request, not yet retried. -/
def exReqA : RequestConfig :=
  { url := "/data/a", method := "get",
    headers := { authorization := some "Bearer old", contentType := none },
    retry := false }

/-- A second concrete non-auth API request, not yet retried. -/
def exReqB : RequestConfig :=
  { url := "/data/b", method := "get",
    headers := { authorization := some "Bearer old", contentType := none },
    retry := false }

/-- The request a queued continuation for `exReqB` replays after a refresh
that returned access token `new123`: bearer header reattached, `_retry`
still unset. -/
def exReplayB : RequestConfig :=
  { exReqB with headers := { exReqB.headers with
      authorization := some ("Bearer " ++ "new123") } }

/-- Concrete events: two plain API 401s with no settlement in between. -/
def exEvs : List Event :=
  [Event.arrive ⟨some 401, exReqA⟩ 1, Event.arrive ⟨some 401, exReqB⟩ 2]

/-- Concrete initial state with no refresh token in the store. -/
def exS0NoRefresh : SysState :=
  { isRefreshing := false, failedQueue := [],
    store := { access_token := some "old", refresh_token := none },
    pending := none, refreshPosts := 0, redirects := 0 }

/-- Concrete request already carrying the retried marker. -/
def exReqMarked : RequestConfig :=
  { url := "/data/a", method := "get",
    headers := { authorization := some "Bearer old", contentType := none },
    retry := true }

/-- Concrete request targeting the login auth endpoint. -/
def exReqLogin : RequestConfig :=
  { url := "/api/auth/login/", method := "post",
    headers := { authorization := none, contentType := some "application/json" },
    retry := false }

/-- Concrete store holding a nonempty access token. -/
def exStore : Store :=
  { access_token := some "tok1", refresh_token := some "rt0" }

/-! Helper lemmas shared by the claim theorems. -/

/-- Unpack the `plainApi401` test on an interceptor invocation event. -/
theorem plainApi401_arrive (error : AxiosError) (cid : Nat)
    (h : plainApi401 (Event.arrive error cid) = true) :
    error.status = some 401 ∧ error.config.retry = false ∧
      isAuthEndpoint error.config.url = false := by
  have h' := h
  simp [plainApi401] at h'
  exact ⟨h'.1.1, h'.1.2, h'.2⟩

/-- While a refresh is in flight, a plain API 401 enqueues its continuation
and issues no refresh call. -/
theorem step_while_refreshing (s : SysState) (e : Event)
    (hr : s.isRefreshing = true) (he : plainApi401 e = true) :
    (sysStep s e).refreshPosts = s.refreshPosts ∧
    (sysStep s e).failedQueue.length = s.failedQueue.length + 1 ∧
    (sysStep s e).isRefreshing = true := by
  cases e with
  | settle res => simp [plainApi401] at he
  | arrive error cid =>
      obtain ⟨h1, h2, h3⟩ := plainApi401_arrive error cid he
      simp [sysStep, respHandler, h1, h2, h3, hr]

/-- While a refresh is in flight, a run of plain API 401 events issues no
refresh call and only grows the queue, one continuation per event. -/
theorem run_while_refreshing (evs : List Event) :
    ∀ s : SysState, s.isRefreshing = true →
      (∀ e ∈ evs, plainApi401 e = true) →
      (sysRun s evs).refreshPosts = s.refreshPosts ∧
      (sysRun s evs).failedQueue.length = s.failedQueue.length + evs.length ∧
      (sysRun s evs).isRefreshing = true := by
  induction evs with
  | nil =>
      intro s hr _
      exact ⟨rfl, by simp [sysRun], by simpa [sysRun] using hr⟩
  | cons e es ih =>
      intro s hr hall
      have he : plainApi401 e = true := hall e (List.mem_cons_self e es)
      have hstep := step_while_refreshing s e hr he
      have hrest := ih (sysStep s e) hstep.2.2
        (fun x hx => hall x (List.mem_cons_of_mem e hx))
      refine ⟨?_, ?_, hrest.2.2⟩
      · show (sysRun (sysStep s e) es).refreshPosts = s.refreshPosts
        rw [hrest.1, hstep.1]
      · show (sysRun (sysStep s e) es).failedQueue.length
            = s.failedQueue.length + (es.length + 1)
        rw [hrest.2.1, hstep.2.1]
        omega

/-- From the idle state with a truthy refresh token, a plain API 401 issues
exactly one refresh call, leaves the queue unchanged and raises the flag. -/
theorem step_from_idle (s : SysState) (error : AxiosError) (cid : Nat)
    (h1 : error.status = some 401) (h2 : error.config.retry = false)
    (h3 : isAuthEndpoint error.config.url = false)
    (hid : s.isRefreshing = false)
    (hrt : truthy s.store.refresh_token = true) :
    (sysStep s (Event.arrive error cid)).refreshPosts = s.refreshPosts + 1 ∧
    (sysStep s (Event.arrive error cid)).failedQueue = s.failedQueue ∧
    (sysStep s (Event.arrive error cid)).isRefreshing = true := by
  simp [sysStep, respHandler, h1, h2, h3, hid, hrt]

/-! Claim theorems. -/

/-- C1: at most one refresh network call is in flight at any time.  For
every nonempty sequence of interceptor invocations in which each request
receives a plain API 401 (non-auth URL, not yet retried), starting from an
idle coordinator with a truthy refresh token, exactly one POST to the
refresh endpoint is issued and every later 401 only enqueues its
continuation; moreover any single plain API 401 processed while
`isRefreshing` is true leaves the refresh-call count unchanged and appends
exactly one continuation to the queue. -/
theorem at_most_one_refresh_call (s0 : SysState) (evs : List Event)
    (hne : evs ≠ [])
    (hall : ∀ e ∈ evs, plainApi401 e = true)
    (hid : s0.isRefreshing = false)
    (hrt : truthy s0.store.refresh_token = true) :
    ((sysRun s0 evs).refreshPosts = s0.refreshPosts + 1 ∧
     (sysRun s0 evs).failedQueue.length
        = s0.failedQueue.length + (evs.length - 1) ∧
     (sysRun s0 evs).isRefreshing = true) ∧
    (∀ (s : SysState) (e : Event), s.isRefreshing = true →
        plainApi401 e = true →
        (sysStep s e).refreshPosts = s.refreshPosts ∧
        (sysStep s e).failedQueue.length = s.failedQueue.length + 1) := by
  constructor
  · cases evs with
    | nil => exact absurd rfl hne
    | cons e es =>
        cases e with
        | settle res =>
            have h := hall (Event.settle res) (List.mem_cons_self _ _)
            simp [plainApi401] at h
        | arrive error cid =>
            have he := hall (Event.arrive error cid) (List.mem_cons_self _ _)
            obtain ⟨h1, h2, h3⟩ := plainApi401_arrive error cid he
            have hfst := step_from_idle s0 error cid h1 h2 h3 hid hrt
            have hrest := run_while_refreshing es
              (sysStep s0 (Event.arrive error cid)) hfst.2.2
              (fun x hx => hall x (List.mem_cons_of_mem _ hx))
            refine ⟨?_, ?_, hrest.2.2⟩
            · show (sysRun (sysStep s0 (Event.arrive error cid)) es).refreshPosts
                  = s0.refreshPosts + 1
              rw [hrest.1, hfst.1]
            · show (sysRun (sysStep s0 (Event.arrive error cid)) es).failedQueue.length
                  = s0.failedQueue.length + (es.length + 1 - 1)
              rw [hrest.2.1, hfst.2.1]
              omega
  · intro s e hr he
    exact ⟨(step_while_refreshing s e hr he).1,
      (step_while_refreshing s e hr he).2.1⟩

/-- Witness for C1: two concurrent 401s from the idle state issue one
refresh call and leave one queued continuation. -/
theorem at_most_one_refresh_call_witness :
    (sysRun exS0 exEvs).refreshPosts = exS0.refreshPosts + 1 ∧
    (sysRun exS0 exEvs).failedQueue.length
        = exS0.failedQueue.length + (exEvs.length - 1) ∧
    (sysRun exS0 exEvs).isRefreshing = true :=
  (at_most_one_refresh_call exS0 exEvs (by decide) (by decide)
    (by decide) (by decide)).1

/-- C2: when the in-flight refresh settles, every continuation in the
pending queue is settled exactly once, in enqueue order — resolved with the
new access token on success, rejected with the refresh error on failure —
and the queue is empty afterwards. -/
theorem settle_drains_queue_in_order (s : SysState) (orig : RequestConfig)
    (res : RefreshResult) :
    (refreshSettle s orig res).state.failedQueue = [] ∧
    (refreshSettle s orig res).settlements.map settledCont = s.failedQueue ∧
    (refreshSettle s orig res).settlements
        = s.failedQueue.map (settleWith res) := by
  cases res with
  | success access =>
      refine ⟨rfl, ?_, rfl⟩
      have hcomp : (settledCont ∘ fun c => Settlement.resolved c (some access))
          = id := rfl
      simp [refreshSettle, processQueue, List.map_map, hcomp]
  | failure e =>
      refine ⟨rfl, ?_, rfl⟩
      have hcomp : (settledCont ∘ fun c => Settlement.rejected c e) = id := rfl
      simp [refreshSettle, processQueue, List.map_map, hcomp]

/-- C3 counterexample: a queued request replayed after a successful refresh
does not carry the retried marker, so a second 401 on the replay starts a
second refresh instead of failing immediately.  Trace: request A initiates
a refresh, request B is queued, the refresh succeeds with token `new123`,
B is replayed with the new bearer header, and the replay receives another
401. -/
theorem replayed_request_reenters_refresh :
    (refreshSettle
        (sysRun exS0 exEvs)
        { exReqA with retry := true }
        (RefreshResult.success "new123")).queuedReplays = [exReplayB] ∧
    exReplayB.retry = false ∧
    ¬ ((respHandler
          (sysStep (sysRun exS0 exEvs) (Event.settle (RefreshResult.success "new123")))
          ⟨some 401, exReplayB⟩ 3).2 = HandlerAction.rejectOriginal) ∧
    (respHandler
        (sysStep (sysRun exS0 exEvs) (Event.settle (RefreshResult.success "new123")))
        ⟨some 401, exReplayB⟩ 3).2 = HandlerAction.refreshStarted "rt0" ∧
    (respHandler
        (sysStep (sysRun exS0 exEvs) (Event.settle (RefreshResult.success "new123")))
        ⟨some 401, exReplayB⟩ 3).1.refreshPosts
      = (sysStep (sysRun exS0 exEvs)
          (Event.settle (RefreshResult.success "new123"))).refreshPosts + 1 := by
  decide

/-- C3 (amended): a request carrying the retried marker that receives a
second 401 is neither queued nor allowed to start a refresh, and fails
immediately with the original error, with no state change; the marker,
however, is set only on the request that initiated a refresh, so a queued
request replayed after a successful refresh does not carry it. -/
theorem retried_marker_blocks_second_refresh (s : SysState)
    (error : AxiosError) (cid : Nat) (h : error.config.retry = true) :
    respHandler s error cid = (s, HandlerAction.rejectOriginal) := by
  simp [respHandler, h]

/-- Witness for the amended C3: a concrete marked request is rejected
immediately. -/
theorem retried_marker_blocks_second_refresh_witness :
    respHandler exS0 ⟨some 401, exReqMarked⟩ 1
      = (exS0, HandlerAction.rejectOriginal) :=
  retried_marker_blocks_second_refresh exS0 ⟨some 401, exReqMarked⟩ 1 (by decide)

/-- C4 counterexample: with no refresh token in the store, the 401 handler
clears the store, signals the redirect and rejects the original request,
but the early return skips the `finally` that resets `isRefreshing`, so the
flag is not false afterwards — the coordinator does not return to idle. -/
theorem missing_refresh_token_flag_not_reset :
    truthy exS0NoRefresh.store.refresh_token = false ∧
    (respHandler exS0NoRefresh ⟨some 401, exReqA⟩ 1).2
        = HandlerAction.missingRefreshToken ∧
    ¬ ((respHandler exS0NoRefresh ⟨some 401, exReqA⟩ 1).1.isRefreshing
        = false) := by
  decide

/-- C4 (amended): if a 401 arrives for a non-auth, not-yet-retried request
while the coordinator is idle and no truthy refresh token exists, both
stored tokens are removed, the redirect-to-login side effect is signaled,
the original request is rejected, and no refresh call is made; the
refresh-in-progress flag, however, remains true afterwards because the
early return bypasses the `finally` block that resets it. -/
theorem missing_refresh_token_behavior (s : SysState) (error : AxiosError)
    (cid : Nat) (h1 : error.status = some 401)
    (h2 : error.config.retry = false)
    (h3 : isAuthEndpoint error.config.url = false)
    (hid : s.isRefreshing = false)
    (hrt : truthy s.store.refresh_token = false) :
    (respHandler s error cid).1.store.access_token = none ∧
    (respHandler s error cid).1.store.refresh_token = none ∧
    (respHandler s error cid).1.redirects = s.redirects + 1 ∧
    (respHandler s error cid).2 = HandlerAction.missingRefreshToken ∧
    (respHandler s error cid).1.refreshPosts = s.refreshPosts ∧
    (respHandler s error cid).1.isRefreshing = true := by
  simp [respHandler, clearTokens, h1, h2, h3, hid, hrt]

/-- Witness for the amended C4, at the concrete store with no refresh
token. -/
theorem missing_refresh_token_behavior_witness :
    (respHandler exS0NoRefresh ⟨some 401, exReqA⟩ 1).1.store.access_token = none ∧
    (respHandler exS0NoRefresh ⟨some 401, exReqA⟩ 1).1.store.refresh_token = none ∧
    (respHandler exS0NoRefresh ⟨some 401, exReqA⟩ 1).1.redirects
        = exS0NoRefresh.redirects + 1 ∧
    (respHandler exS0NoRefresh ⟨some 401, exReqA⟩ 1).2
        = HandlerAction.missingRefreshToken ∧
    (respHandler exS0NoRefresh ⟨some 401, exReqA⟩ 1).1.refreshPosts
        = exS0NoRefresh.refreshPosts ∧
    (respHandler exS0NoRefresh ⟨some 401, exReqA⟩ 1).1.isRefreshing = true :=
  missing_refresh_token_behavior exS0NoRefresh ⟨some 401, exReqA⟩ 1
    (by decide) (by decide) (by decide) (by decide) (by decide)

/-- C5: on refresh success the store is updated to the new access token,
every queued continuation is resolved with that token, each queued request
and the initiator are replayed with `Authorization: Bearer <access>`, and
the coordinator returns to idle. -/
theorem refresh_success_updates_and_replays (s : SysState)
    (orig : RequestConfig) (access : String) :
    (refreshSettle s orig (RefreshResult.success access)).state.store.access_token
        = some access ∧
    (refreshSettle s orig (RefreshResult.success access)).settlements
        = s.failedQueue.map (fun c => Settlement.resolved c (some access)) ∧
    (refreshSettle s orig (RefreshResult.success access)).queuedReplays
        = s.failedQueue.map (fun c =>
            { c.req with headers := { c.req.headers with
                authorization := some ("Bearer " ++ access) } }) ∧
    (refreshSettle s orig (RefreshResult.success access)).initiatorReplay
        = some { orig with headers := { orig.headers with
            authorization := some ("Bearer " ++ access) } } ∧
    (refreshSettle s orig (RefreshResult.success access)).state.isRefreshing
        = false ∧
    (refreshSettle s orig (RefreshResult.success access)).state.pending
        = none := by
  refine ⟨rfl, ?_, rfl, rfl, rfl, rfl⟩
  simp [refreshSettle, processQueue]

/-- C6: on refresh failure every queued continuation is rejected with that
same refresh error, both stored tokens are removed, the redirect-to-login
side effect is signaled exactly once, the original request is rejected with
the refresh error, and the coordinator returns to idle. -/
theorem refresh_failure_rejects_all (s : SysState) (orig : RequestConfig)
    (e : RefreshErr) :
    (refreshSettle s orig (RefreshResult.failure e)).settlements
        = s.failedQueue.map (fun c => Settlement.rejected c e) ∧
    (refreshSettle s orig (RefreshResult.failure e)).state.store.access_token
        = none ∧
    (refreshSettle s orig (RefreshResult.failure e)).state.store.refresh_token
        = none ∧
    (refreshSettle s orig (RefreshResult.failure e)).state.redirects
        = s.redirects + 1 ∧
    (refreshSettle s orig (RefreshResult.failure e)).originalError = some e ∧
    (refreshSettle s orig (RefreshResult.failure e)).state.isRefreshing
        = false ∧
    (refreshSettle s orig (RefreshResult.failure e)).state.failedQueue
        = [] := by
  refine ⟨?_, rfl, rfl, rfl, rfl, rfl, rfl⟩
  simp [refreshSettle, processQueue]

/-- C7: a request targeting an authentication endpoint (login,
registration, third-party Google auth) never triggers a refresh: whatever
the response status, the response interceptor leaves the state untouched
and propagates the original error to the caller. -/
theorem auth_endpoint_bypasses_refresh (s : SysState) (error : AxiosError)
    (cid : Nat) (h : isAuthEndpoint error.config.url = true) :
    respHandler s error cid = (s, HandlerAction.rejectOriginal) := by
  unfold respHandler
  split
  · simp [h]
  · rfl

/-- Witness for C7: a 401 on the login endpoint is rejected unchanged. -/
theorem auth_endpoint_bypasses_refresh_witness :
    respHandler exS0 ⟨some 401, exReqLogin⟩ 1
      = (exS0, HandlerAction.rejectOriginal) :=
  auth_endpoint_bypasses_refresh exS0 ⟨some 401, exReqLogin⟩ 1 (by decide)

/-- C8: the outbound interceptor attaches `Authorization: Bearer <access>`
exactly when a truthy access token is stored and the URL is neither a login
nor a registration endpoint, leaving every other part of the descriptor
unchanged; with no stored token the descriptor passes through identically
(no error is raised). -/
theorem request_interceptor_attaches_bearer (store : Store)
    (config : RequestConfig) :
    (∀ t, store.access_token = some t → t ≠ "" →
      includes config.url "/auth/login" = false →
      includes config.url "/auth/registration" = false →
      (requestInterceptor store config).headers.authorization
          = some ("Bearer " ++ t) ∧
      (requestInterceptor store config).url = config.url ∧
      (requestInterceptor store config).method = config.method ∧
      (requestInterceptor store config).retry = config.retry ∧
      (requestInterceptor store config).headers.contentType
          = config.headers.contentType) ∧
    (store.access_token = none → requestInterceptor store config = config) := by
  constructor
  · intro t ht hne h1 h2
    have hne' : (t != "") = true := by simpa using hne
    simp [requestInterceptor, ht, hne', h1, h2]
  · intro h
    simp [requestInterceptor, h]

/-- Witness for C8: with a stored token `tok1` and a plain API URL the
bearer header is attached and nothing else changes. -/
theorem request_interceptor_attaches_bearer_witness :
    (requestInterceptor exStore exReqA).headers.authorization
        = some ("Bearer " ++ "tok1") ∧
    (requestInterceptor exStore exReqA).url = exReqA.url ∧
    (requestInterceptor exStore exReqA).method = exReqA.method ∧
    (requestInterceptor exStore exReqA).retry = exReqA.retry ∧
    (requestInterceptor exStore exReqA).headers.contentType
        = exReqA.headers.contentType :=
  (request_interceptor_attaches_bearer exStore exReqA).1 "tok1"
    (by decide) (by decide) (by decide) (by decide)

/-- C9: the outbound interceptor is idempotent: applying it twice with the
same store yields the same request descriptor as applying it once. -/
theorem request_interceptor_idempotent (store : Store)
    (config : RequestConfig) :
    requestInterceptor store (requestInterceptor store config)
      = requestInterceptor store config := by
  unfold requestInterceptor
  cases hs : store.access_token with
  | none => rfl
  | some t =>
      by_cases hc : (t != "" && !(includes config.url "/auth/login")
          && !(includes config.url "/auth/registration")) = true
      · simp [hc]
      · simp [hc]

/-- C10: the refresh network call is issued through the bare HTTP library,
not through the intercepted client: it carries no `Authorization` header,
and an error from the refresh endpoint — even a 401 — is handled by the
failure branch of the coordinator, which issues no further refresh call,
empties the queue and lowers the flag, so the refresh can never re-enter
the refresh state machine. -/
theorem refresh_call_bypasses_interceptors (apiUrl rt : String)
    (s : SysState) (orig : RequestConfig) :
    (refreshCallOf apiUrl rt).headers.authorization = none ∧
    (refreshSettle s orig
        (RefreshResult.failure (RefreshErr.httpErr 401))).state.refreshPosts
      = s.refreshPosts ∧
    (refreshSettle s orig
        (RefreshResult.failure (RefreshErr.httpErr 401))).state.isRefreshing
      = false ∧
    (refreshSettle s orig
        (RefreshResult.failure (RefreshErr.httpErr 401))).state.failedQueue
      = [] := ⟨rfl, rfl, rfl, rfl⟩

end AdVision
